import Mathlib

/-!
Shallow embedding of the drug-repurposing orchestration engine: the
task/result model, the query-decomposition fallback, the four worker
scoring algorithms, the parallel scheduler with its shared deadline, the
result aggregator and the risk/synthesis helpers, together with proofs
of behavioural properties of these definitions.

Modelling conventions: Python floats are modelled as rationals, Python
dictionaries as association lists where a later binding shadows an
earlier one, and wall-clock execution times as explicit rational inputs.
Timestamp fields (created_at, completed_at) carry no behavioural content
and are omitted.
-/

namespace DrugRepurposing

/-- Rounding to two decimal places, modelling the Python builtin
round(x, 2) (ties, which never arise at the call sites modelled here,
round half-up). -/
def round2 (q : ℚ) : ℚ := ((round (100 * q) : ℤ) : ℚ) / 100

/-- Model of a Python value stored in a data dictionary: a number, a
string, a list of strings, or a nested dictionary. -/
inductive PyVal where
  | num (q : ℚ)
  | str (s : String)
  | dict (d : List (String × PyVal))

/-- A Python dictionary with string keys. -/
abbrev PyDict := List (String × PyVal)

/-- Python dictionary lookup: the last binding of a key wins, and a
missing key yields none. -/
def pyGet {α : Type} (d : List (String × α)) (k : String) : Option α :=
  d.foldl (fun acc kv => if kv.1 = k then some kv.2 else acc) none

/-- Numeric dictionary access with a default, modelling d.get(k, dflt)
at call sites where the stored value is numeric. -/
def getNumD (d : PyDict) (k : String) (dflt : ℚ) : ℚ :=
  match pyGet d k with
  | some (PyVal.num q) => q
  | _ => dflt

/-- String dictionary access with a default, modelling d.get(k, dflt)
at call sites where the stored value is a string. -/
def getStrD (d : PyDict) (k : String) (dflt : String) : String :=
  match pyGet d k with
  | some (PyVal.str s) => s
  | _ => dflt

/-- Does the character list start with the given pattern. -/
def listStartsWith : List Char → List Char → Bool
  | _, [] => true
  | [], _ :: _ => false
  | c :: cs, d :: ds => c == d && listStartsWith cs ds

/-- Does the character list contain the pattern as a contiguous block. -/
def listHasSub : List Char → List Char → Bool
  | [], needle => needle.isEmpty
  | c :: cs, needle => listStartsWith (c :: cs) needle || listHasSub cs needle

/-- Substring containment, modelling the Python expression
needle in hay on strings. -/
def strContains (hay needle : String) : Bool :=
  listHasSub hay.toList needle.toList

/-- Lower-casing, modelling str.lower() (ASCII fragment). -/
def pyLower (s : String) : String := String.mk (s.toList.map Char.toLower)

/-- Upper-casing, modelling str.upper() (ASCII fragment). -/
def pyUpper (s : String) : String := String.mk (s.toList.map Char.toUpper)

/-- Modelling str.capitalize(): first character upper-cased, the rest
lower-cased. -/
def pyCapitalize (s : String) : String :=
  match s.toList with
  | [] => ""
  | c :: cs => String.mk (c.toUpper :: cs.map Char.toLower)

/-- Accumulating word splitter over a character list: whitespace ends
the pending word, empty fragments are dropped. -/
def wordsAux : List Char → List Char → List String
  | [], acc => if acc.isEmpty then [] else [String.mk acc.reverse]
  | c :: cs, acc =>
    if c.isWhitespace then
      if acc.isEmpty then wordsAux cs [] else String.mk acc.reverse :: wordsAux cs []
    else wordsAux cs (c :: acc)

/-- Modelling str.split() with no argument: split on whitespace and drop
empty fragments. -/
def pyWords (s : String) : List String := wordsAux s.toList []

/-- AgentTask (base_agent.py): a task handed to one worker agent. The
created_at timestamp is omitted. -/
structure AgentTask where
  task_id : String
  description : String
  parameters : PyDict := []
  priority : Nat := 1

/-- AgentResult (base_agent.py): the outcome of one worker execution.
The completed_at timestamp is omitted. -/
structure AgentResult where
  agent_name : String
  task_id : String
  status : String
  data : PyDict := []
  error : Option String := none
  execution_time : ℚ := 0
  confidence_score : ℚ := 0
  sources : List String := []

/-- BaseAgent.validate_task: a task is valid when its description is a
non-empty (truthy) string. -/
def validate_task (t : AgentTask) : Bool :=
  if t.description = "" then false else true

/-- QueryDecomposition (master_agent.py): structured output of query
decomposition. -/
structure QueryDecomposition where
  condition : String
  drug_name : String
  analysis_type : String
  required_agents : List String
  parameters : List (String × String)
deriving DecidableEq, Repr

/-- The fixed keyword list scanned by the fallback decomposition. -/
def diseaseKeywords : List String :=
  ["disease", "cancer", "diabetes", "alzheimer", "parkinson"]

/-- Predicate for the capitalized-word fallback: first character is
upper case and the word is longer than 3 characters. -/
def capWordP (w : String) : Bool :=
  (w.toList.headD ' ').isUpper && decide (3 < w.length)

/-- MasterAgent._fallback_decomposition: deterministic keyword-based
decomposition used when the language-model call fails. -/
def fallbackDecomposition (query : String) : QueryDecomposition :=
  let queryLower := pyLower query
  let words := pyWords query
  let condition :=
    match diseaseKeywords.find? (fun k => strContains queryLower k) with
    | some k => pyCapitalize k
    | none =>
      match words.find? capWordP with
      | some w => w
      | none => ""
  { condition := if condition = "" then "Unknown condition" else condition
    drug_name := ""
    analysis_type := "repurposing"
    required_agents := ["clinical", "patent", "market", "web"]
    parameters := [("region", "Global")] }

/-- A clinical study record as consumed by the clinical agent. -/
structure Study where
  status : String := ""
  phase : List String := []
  interventions : List String := []

/-- Does a study list one of its phases as containing the given tag,
modelling the expression: tag in str(s.get("phase", [])).upper(). -/
def studyHasPhase (s : Study) (tag : String) : Bool :=
  s.phase.any (fun p => strContains (pyUpper p) tag)

/-- ClinicalIntelligenceAgent._calculate_evidence_score: capped additive
evidence score over retrieved studies. -/
def calculateEvidenceScore (studies : List Study) : ℚ :=
  if studies.isEmpty then 0
  else
    let volume : ℚ := min ((studies.length : ℚ) / 10) 3
    let completed := (studies.filter (fun s => s.status = "COMPLETED")).length
    let completedScore : ℚ := min ((completed : ℚ) / 5) 3
    let phase3 := (studies.filter (fun s => studyHasPhase s "PHASE3")).length
    let phase4 := (studies.filter (fun s => studyHasPhase s "PHASE4")).length
    let phaseScore : ℚ := min (((phase3 : ℚ) * 1.5 + (phase4 : ℚ) * 2) / 5) 4
    round2 (min (volume + completedScore + phaseScore) 10)

/-- The five phase buckets of ClinicalIntelligenceAgent._analyze_phases. -/
def phaseNames : List String :=
  ["EARLY_PHASE1", "PHASE1", "PHASE2", "PHASE3", "PHASE4"]

/-- Normalisation applied to a phase label before bucketing:
upper-casing and replacing spaces by underscores. -/
def normPhase (p : String) : String :=
  String.mk (p.toList.map (fun c => if c = ' ' then '_' else c.toUpper))

/-- ClinicalIntelligenceAgent._analyze_phases: occurrence counts of each
recognised phase label across all studies. -/
def analyzePhases (studies : List Study) : List (String × Nat) :=
  phaseNames.map (fun ph =>
    (ph, (studies.map (fun s => (s.phase.filter (fun p => normPhase p = ph)).length)).sum))

/-- ClinicalIntelligenceAgent._generate_recommendation: threshold bands
on the evidence score (the phase analysis argument is accepted but not
consulted, as in the source). -/
def generateClinicalRecommendation (total_trials : Nat) (evidence_score : ℚ)
    (phase_analysis : List (String × Nat)) : String :=
  if total_trials = 0 then "No clinical trials found. Further research needed."
  else if 7 ≤ evidence_score then
    "Strong clinical evidence. Multiple trials with advanced phases."
  else if 4 ≤ evidence_score then
    "Moderate clinical evidence. Some trials in progress or completed."
  else
    "Limited clinical evidence. Early-stage or few trials available."

/-- PatentLandscapeAgent._calculate_risk_score: IP risk from the active
patent count, capped at 10. -/
def calculateRiskScore (active_patents : Nat) : ℚ :=
  round2 (min ((active_patents : ℚ) / 2) 10)

/-- MarketIntelligenceAgent._calculate_market_attractiveness: tiered
additive attractiveness score from market size, growth and competitive
concentration. -/
def calculateMarketAttractiveness (market_size competition : PyDict) : ℚ :=
  let size_usd := getNumD market_size "market_size_usd" 0
  let sizeScore : ℚ :=
    if 20e9 < size_usd then 4 else if 10e9 < size_usd then 3
    else if 5e9 < size_usd then 2 else 1
  let cagr := getNumD market_size "projected_cagr" 0
  let growthScore : ℚ :=
    if 10 < cagr then 3 else if 7 < cagr then 2 else if 4 < cagr then 1 else 0
  let top3 := getNumD competition "top_3_market_share" 100
  let competitionScore : ℚ :=
    if top3 < 50 then 3 else if top3 < 70 then 2 else 1
  round2 (min (sizeScore + growthScore + competitionScore) 10)

/-- The trend-analysis payload consumed by the web agent, modelled as a
structure (year keys of the year-distribution dictionary are modelled
as integers). -/
structure TrendAnalysis where
  publication_trend : String := ""
  year_distribution : List (Int × Nat) := []

/-- WebIntelligenceAgent._calculate_research_momentum: tiered additive
research-momentum score from publication volume, trend direction and
recent activity. -/
def calculateResearchMomentum (trend_analysis : TrendAnalysis) (total_pubs : Nat) : ℚ :=
  let volumeScore : ℚ :=
    if 50 < total_pubs then 4 else if 20 < total_pubs then 3
    else if 10 < total_pubs then 2 else if 0 < total_pubs then 1 else 0
  let trendScore : ℚ :=
    if trend_analysis.publication_trend = "Increasing" then 3
    else if trend_analysis.publication_trend = "Stable" then 1.5 else 0
  let recentCount : ℕ :=
    ((trend_analysis.year_distribution.filter (fun p => 2020 ≤ p.1)).map (fun p => p.2)).sum
  let recentScore : ℚ :=
    if trend_analysis.year_distribution = [] then 0
    else min ((recentCount : ℚ) / 10) 3
  round2 (min (volumeScore + trendScore + recentScore) 10)

/-- One dispatched worker invocation as seen by the scheduler: the
worker name, its task, the outcome of awaiting it (a returned result or
a raised exception rendered as its message string), and the wall-clock
duration the invocation would take. -/
structure WorkerRun where
  name : String
  task : AgentTask
  outcome : Except String AgentResult
  duration : ℚ

/-- The synthetic failed result the scheduler substitutes for a worker
whose execution raised rather than returned. -/
def syntheticFailure (w : WorkerRun) (e : String) : AgentResult :=
  { agent_name := w.name
    task_id := w.task.task_id
    status := "failed"
    data := []
    error := some e
    execution_time := 0
    confidence_score := 0
    sources := [] }

/-- MasterAgent._execute_agents_parallel: all workers of the batch run
concurrently under one shared deadline. The batch completes when the
slowest worker does; if that exceeds the timeout, the whole batch is
abandoned and the empty list is returned, otherwise each raised
exception is replaced by a synthetic failed result and returned results
pass through unchanged, one per dispatched task in dispatch order. -/
def executeAgentsParallel (timeout : ℚ) (runs : List WorkerRun) : List AgentResult :=
  if ∃ w ∈ runs, timeout < w.duration then []
  else
    runs.map (fun w =>
      match w.outcome with
      | Except.ok r => r
      | Except.error e => syntheticFailure w e)

/-- The aggregated summary dictionary built by
MasterAgent._aggregate_results, modelled as a structure; the per-worker
data snapshot keyed by agent name plus the "_data" suffix is kept as an
association list in insertion order. -/
structure AggregatedData where
  total_agents : Nat
  successful_agents : Nat
  failed_agents : Nat
  average_confidence : ℚ
  total_execution_time : ℚ
  all_sources : List String
  agent_data : List (String × PyDict)

/-- MasterAgent._aggregate_results: pure summary statistics over one
batch of results. The source builds all_sources as list(set(...)),
whose enumeration order is unspecified; it is modelled by dedup, which
preserves the same membership. -/
def aggregateResults (results : List AgentResult) : AggregatedData :=
  let successful := results.filter (fun r => r.status = "success")
  { total_agents := results.length
    successful_agents := successful.length
    failed_agents := (results.filter (fun r => r.status = "failed")).length
    average_confidence :=
      if successful.isEmpty then 0
      else (successful.map (fun r => r.confidence_score)).sum / (successful.length : ℚ)
    total_execution_time := (results.map (fun r => r.execution_time)).sum
    all_sources := ((results.map (fun r => r.sources)).flatten).dedup
    agent_data := successful.map (fun r => (r.agent_name ++ "_data", r.data)) }

/-- Formatting of a non-negative rational with one decimal digit,
modelling the f-string conversion with the .1f format (used only inside
narrative finding strings; no verified property depends on it). -/
def fmtQ1 (q : ℚ) : String :=
  let n := round (10 * q)
  toString (n / 10) ++ "." ++ toString (n % 10)

/-- Crude model of the Python str() conversion of a number as it
appears interpolated into finding strings. -/
def fmtNum (q : ℚ) : String :=
  if q.den = 1 then toString q.num else fmtQ1 q

/-- The headline finding string contributed by one successful result in
MasterAgent._extract_key_findings, when its agent is recognised. -/
def findingOf (r : AgentResult) : Option String :=
  if r.status = "success" then
    if r.agent_name = "ClinicalIntelligenceAgent" then
      some ("Clinical: " ++ fmtNum (getNumD r.data "total_trials" 0) ++
        " trials found with evidence score " ++ fmtNum (getNumD r.data "evidence_score" 0) ++ "/10")
    else if r.agent_name = "PatentLandscapeAgent" then
      some ("Patents: " ++ fmtNum (getNumD r.data "active_patents" 0) ++
        " active patents identified")
    else if r.agent_name = "MarketIntelligenceAgent" then
      let market_size := match pyGet r.data "market_size" with
        | some (PyVal.dict d) => d
        | _ => []
      some ("Market: $" ++ fmtQ1 (getNumD market_size "market_size_usd" 0 / 1e9) ++
        "B opportunity with " ++ fmtNum (getNumD market_size "projected_cagr" 0) ++ "% CAGR")
    else if r.agent_name = "WebIntelligenceAgent" then
      some ("Literature: " ++ fmtNum (getNumD r.data "total_publications" 0) ++
        " publications with momentum score " ++ fmtNum (getNumD r.data "research_momentum_score" 0) ++ "/10")
    else none
  else none

/-- MasterAgent._extract_key_findings: one formatted finding per
successful recognised worker, in result order. -/
def extractKeyFindings (results : List AgentResult) : List String :=
  results.filterMap findingOf

/-- The risk dictionary built by MasterAgent._assess_overall_risk. -/
structure RiskAssessment where
  clinical_risk : String
  ip_risk : String
  market_risk : String
  overall_risk : String
deriving DecidableEq, Repr

/-- One loop step of MasterAgent._assess_overall_risk: a successful
result of a recognised agent overwrites the band of its dimension. -/
def riskStep (risks : RiskAssessment) (r : AgentResult) : RiskAssessment :=
  if r.status = "success" then
    if r.agent_name = "ClinicalIntelligenceAgent" then
      let e := getNumD r.data "evidence_score" 0
      { risks with clinical_risk :=
          if 6 ≤ e then "Low" else if 3 ≤ e then "Moderate" else "High" }
    else if r.agent_name = "PatentLandscapeAgent" then
      let s := getNumD r.data "risk_score" 5
      { risks with ip_risk :=
          if s ≤ 3 then "Low" else if s ≤ 6 then "Moderate" else "High" }
    else if r.agent_name = "MarketIntelligenceAgent" then
      let a := getNumD r.data "attractiveness_score" 5
      { risks with market_risk :=
          if 6 ≤ a then "Low" else if 3 ≤ a then "Moderate" else "High" }
    else risks
  else risks

/-- The numeric code of a band, modelling the lookup
risk_values.get(v, 2) over the dictionary Low 1, Moderate 2, High 3,
Unknown 2. -/
def riskValue (v : String) : ℚ :=
  if v = "Low" then 1 else if v = "Moderate" then 2
  else if v = "High" then 3 else 2

/-- MasterAgent._assess_overall_risk: per-dimension bands from the
successful results, then an overall band from the average of the three
dimension codes. -/
def assessOverallRisk (results : List AgentResult) : RiskAssessment :=
  let risks := results.foldl riskStep
    { clinical_risk := "Unknown", ip_risk := "Unknown"
      market_risk := "Unknown", overall_risk := "Moderate" }
  let avg := (riskValue risks.clinical_risk + riskValue risks.ip_risk +
    riskValue risks.market_risk) / 3
  { risks with overall_risk :=
      if avg < 1.7 then "Low" else if avg < 2.3 then "Moderate" else "High" }

/-- MarketIntelligenceAgent._generate_recommendation: threshold bands on
the attractiveness score, interpolating market size and growth. -/
def generateMarketRecommendation (attractiveness_score : ℚ)
    (market_size competition : PyDict) : String :=
  let size_b := getNumD market_size "market_size_usd" 0 / 1e9
  let cagr := getNumD market_size "projected_cagr" 0
  if 7 ≤ attractiveness_score then
    "Highly attractive market ($" ++ fmtQ1 size_b ++ "B, " ++ fmtNum cagr ++
      "% CAGR). Strong commercial opportunity."
  else if 4 ≤ attractiveness_score then
    "Moderately attractive market ($" ++ fmtQ1 size_b ++ "B, " ++ fmtNum cagr ++
      "% CAGR). Competitive but viable."
  else
    "Limited market attractiveness ($" ++ fmtQ1 size_b ++ "B, " ++ fmtNum cagr ++
      "% CAGR). High competition or slow growth."

/-- PatentLandscapeAgent._generate_recommendation: threshold bands on
the risk score, interpolating the freedom-to-operate risk level. -/
def generatePatentRecommendation (risk_level : String) (risk_score : ℚ) : String :=
  if risk_score ≤ 3 then
    "Low IP risk (" ++ risk_level ++ "). Favorable patent landscape for development."
  else if risk_score ≤ 6 then
    "Moderate IP risk (" ++ risk_level ++ "). Patent clearance recommended before proceeding."
  else
    "High IP risk (" ++ risk_level ++ "). Significant patent barriers. Detailed FTO analysis essential."

/-- WebIntelligenceAgent._generate_recommendation: threshold bands on
the momentum score, interpolating trend label and publication count. -/
def generateWebRecommendation (momentum_score : ℚ) (trend : String)
    (total_pubs : Nat) : String :=
  if 7 ≤ momentum_score then
    "Strong research momentum (" ++ trend ++ " trend, " ++ toString total_pubs ++
      " publications). Active research area."
  else if 4 ≤ momentum_score then
    "Moderate research activity (" ++ trend ++ " trend, " ++ toString total_pubs ++
      " publications). Some scientific support."
  else
    "Limited research activity (" ++ trend ++ " trend, " ++ toString total_pubs ++
      " publications). Emerging or niche area."

/-- Provider payload consumed by the clinical agent: the retrieved
studies (the optional outcomes analysis is carried opaquely). -/
structure ClinicalProvider where
  studies : List Study := []
  outcomes : PyDict := []

/-- One retrieved patent record. -/
structure Patent where
  status : String := ""
  citations : Nat := 0
  claims_count : Nat := 0

/-- Landscape analysis payload consumed by the patent agent. -/
structure PatentLandscape where
  active_patents : Nat := 0
  expired_patents : Nat := 0
  fto_risk_level : String := "Unknown"

/-- Provider payload consumed by the patent agent. -/
structure PatentProvider where
  patents : List Patent := []
  landscape : PatentLandscape := {}

/-- Provider payload consumed by the market agent. -/
structure MarketProvider where
  market_size : PyDict := []
  competition : PyDict := []
  pricing : PyDict := []

/-- Provider payload consumed by the web agent: the number of retrieved
articles and the trend analysis. -/
structure WebProvider where
  articles : Nat := 0
  trend_analysis : TrendAnalysis := {}

/-- The failed result produced by BaseAgent._create_result on a
short-circuited execution. -/
def shortCircuitFailure (name task_id msg : String) : AgentResult :=
  { agent_name := name, task_id := task_id, status := "failed"
    data := [], error := some msg
    execution_time := 0, confidence_score := 0, sources := [] }

/-- ClinicalIntelligenceAgent.execute, up to the provider boundary: the
returned Boolean records whether any provider was contacted. Wall-clock
execution_time is not modelled (set to 0); data fields not consulted by
the orchestrator (trials_by_status, key_trials, outcomes_analysis) are
omitted. -/
def clinicalExecute (task : AgentTask) (provider : ClinicalProvider) :
    AgentResult × Bool :=
  if validate_task task = false then
    (shortCircuitFailure "ClinicalIntelligenceAgent" task.task_id "Invalid task parameters", false)
  else
    let condition := getStrD task.parameters "condition" ""
    let drug_name := getStrD task.parameters "drug_name" ""
    if condition = "" then
      (shortCircuitFailure "ClinicalIntelligenceAgent" task.task_id "Condition parameter is required", false)
    else
      let studies := provider.studies
      let evidence_score := calculateEvidenceScore studies
      let phase_analysis := analyzePhases studies
      ({ agent_name := "ClinicalIntelligenceAgent"
         task_id := task.task_id
         status := "success"
         data := [("condition", PyVal.str condition),
                  ("drug_name", PyVal.str drug_name),
                  ("total_trials", PyVal.num studies.length),
                  ("phase_analysis", PyVal.dict (phase_analysis.map (fun p => (p.1, PyVal.num p.2)))),
                  ("evidence_score", PyVal.num evidence_score),
                  ("recommendation", PyVal.str (generateClinicalRecommendation studies.length evidence_score phase_analysis))]
         error := none
         execution_time := 0
         confidence_score := evidence_score / 10
         sources := ["ClinicalTrials.gov"] }, true)

/-- PatentLandscapeAgent.execute, up to the provider boundary (same
conventions as the clinical model; key_patents and the landscape echo
are omitted from the data snapshot). -/
def patentExecute (task : AgentTask) (provider : PatentProvider) :
    AgentResult × Bool :=
  if validate_task task = false then
    (shortCircuitFailure "PatentLandscapeAgent" task.task_id "Invalid task parameters", false)
  else
    let drug_name := getStrD task.parameters "drug_name" ""
    let condition := getStrD task.parameters "condition" ""
    if drug_name = "" then
      (shortCircuitFailure "PatentLandscapeAgent" task.task_id "Drug name parameter is required", false)
    else
      let risk_score := calculateRiskScore provider.landscape.active_patents
      ({ agent_name := "PatentLandscapeAgent"
         task_id := task.task_id
         status := "success"
         data := [("drug_name", PyVal.str drug_name),
                  ("condition", PyVal.str condition),
                  ("total_patents", PyVal.num provider.patents.length),
                  ("active_patents", PyVal.num provider.landscape.active_patents),
                  ("expired_patents", PyVal.num provider.landscape.expired_patents),
                  ("risk_score", PyVal.num risk_score),
                  ("recommendation", PyVal.str (generatePatentRecommendation provider.landscape.fto_risk_level risk_score))]
         error := none
         execution_time := 0
         confidence_score := 0.8
         sources := ["USPTO Patent Database"] }, true)

/-- MarketIntelligenceAgent.execute, up to the provider boundary (same
conventions; the pricing and viability sub-payloads are omitted from
the data snapshot). -/
def marketExecute (task : AgentTask) (provider : MarketProvider) :
    AgentResult × Bool :=
  if validate_task task = false then
    (shortCircuitFailure "MarketIntelligenceAgent" task.task_id "Invalid task parameters", false)
  else
    let condition := getStrD task.parameters "condition" ""
    let drug_name := getStrD task.parameters "drug_name" ""
    let region := getStrD task.parameters "region" "Global"
    if condition = "" then
      (shortCircuitFailure "MarketIntelligenceAgent" task.task_id "Condition parameter is required", false)
    else
      let attractiveness_score := calculateMarketAttractiveness provider.market_size provider.competition
      ({ agent_name := "MarketIntelligenceAgent"
         task_id := task.task_id
         status := "success"
         data := [("condition", PyVal.str condition),
                  ("drug_name", PyVal.str drug_name),
                  ("region", PyVal.str region),
                  ("market_size", PyVal.dict provider.market_size),
                  ("competitive_landscape", PyVal.dict provider.competition),
                  ("attractiveness_score", PyVal.num attractiveness_score),
                  ("recommendation", PyVal.str (generateMarketRecommendation attractiveness_score provider.market_size provider.competition))]
         error := none
         execution_time := 0
         confidence_score := 0.75
         sources := ["IQVIA", "Market Reports", "Industry Analysis"] }, true)

/-- WebIntelligenceAgent.execute, up to the provider boundary (same
conventions; literature, news, themes and finding sub-payloads are
omitted from the data snapshot). -/
def webExecute (task : AgentTask) (provider : WebProvider) :
    AgentResult × Bool :=
  if validate_task task = false then
    (shortCircuitFailure "WebIntelligenceAgent" task.task_id "Invalid task parameters", false)
  else
    let condition := getStrD task.parameters "condition" ""
    let drug_name := getStrD task.parameters "drug_name" ""
    if condition = "" ∨ drug_name = "" then
      (shortCircuitFailure "WebIntelligenceAgent" task.task_id "Both condition and drug_name parameters are required", false)
    else
      let momentum_score := calculateResearchMomentum provider.trend_analysis provider.articles
      ({ agent_name := "WebIntelligenceAgent"
         task_id := task.task_id
         status := "success"
         data := [("condition", PyVal.str condition),
                  ("drug_name", PyVal.str drug_name),
                  ("total_publications", PyVal.num provider.articles),
                  ("research_momentum_score", PyVal.num momentum_score),
                  ("recommendation", PyVal.str (generateWebRecommendation momentum_score provider.trend_analysis.publication_trend provider.articles))]
         error := none
         execution_time := 0
         confidence_score := 0.85
         sources := ["PubMed", "NCBI", "News Sources"] }, true)

/-! Theorems -/

/-- Evaluation rule for two-decimal rounding at a concrete value. -/
theorem round2_eval (q : ℚ) (n : ℤ) (h1 : (n : ℚ) ≤ 100 * q + 1 / 2)
    (h2 : 100 * q + 1 / 2 < (n : ℚ) + 1) : round2 q = (n : ℚ) / 100 := by
  have hr : round (100 * q) = n := by
    rw [round_eq]
    exact Int.floor_eq_iff.2 ⟨h1, by linarith⟩
  unfold round2
  rw [hr]

/-- Two-decimal rounding fixes every rational that is already an exact
multiple of one hundredth. -/
theorem round2_eq_self (q : ℚ) (h : (100 * q).den = 1) : round2 q = q := by
  have hq : ((100 * q).num : ℚ) = 100 * q := by
    rw [← Rat.den_eq_one_iff]
    exact h
  unfold round2
  rw [← hq, round_intCast, hq]
  field_simp

/-- Two-decimal rounding preserves integer lower and upper bounds. -/
theorem round2_bounds (q : ℚ) (a b : ℤ) (h1 : (a : ℚ) ≤ q) (h2 : q ≤ (b : ℚ)) :
    (a : ℚ) ≤ round2 q ∧ round2 q ≤ (b : ℚ) := by
  have hlow : (100 * a : ℤ) ≤ round (100 * q) := by
    rw [round_eq, Int.le_floor]
    push_cast
    nlinarith
  have hhigh : round (100 * q) ≤ (100 * b : ℤ) := by
    rw [round_eq]
    have hlt : ⌊(100 * q + 1 / 2 : ℚ)⌋ < 100 * b + 1 := by
      rw [Int.floor_lt]
      push_cast
      nlinarith
    omega
  unfold round2
  constructor
  · rw [le_div_iff₀ (by norm_num : (0:ℚ) < 100)]
    calc (a : ℚ) * 100 = ((100 * a : ℤ) : ℚ) := by push_cast; ring
      _ ≤ ((round (100 * q) : ℤ) : ℚ) := by exact_mod_cast hlow
  · rw [div_le_iff₀ (by norm_num : (0:ℚ) < 100)]
    calc ((round (100 * q) : ℤ) : ℚ) ≤ ((100 * b : ℤ) : ℚ) := by exact_mod_cast hhigh
      _ = (b : ℚ) * 100 := by push_cast; ring

/-- Two-decimal rounding yields an exact multiple of one hundredth. -/
theorem round2_den (q : ℚ) : (100 * round2 q).den = 1 := by
  have : (100 : ℚ) * round2 q = ((round (100 * q) : ℤ) : ℚ) := by
    unfold round2
    field_simp
  rw [this]
  exact Rat.den_intCast _

/-- C1: if the shared deadline elapses before all workers of a batch
complete, the scheduler abandons the batch and returns the empty result
list, discarding even the results of workers that had already
completed. -/
theorem batch_timeout_discards_all (timeout : ℚ) (runs : List WorkerRun)
    (h : ∃ w ∈ runs, timeout < w.duration) :
    executeAgentsParallel timeout runs = [] := by
  unfold executeAgentsParallel
  rw [if_pos h]

/-- Witness for C1: a batch with a completed fast worker and a slow
worker past the 30 second deadline returns no results at all. -/
theorem batch_timeout_discards_all_witness :
    executeAgentsParallel 30
      [⟨"clinical", ⟨"t1", "analyze clinical", [], 1⟩,
          Except.ok ⟨"ClinicalIntelligenceAgent", "t1", "success", [], none, 1, 1/2, []⟩, 1⟩,
       ⟨"patent", ⟨"t2", "analyze patents", [], 1⟩, Except.error "still running", 100⟩] = [] :=
  batch_timeout_discards_all 30 _
    ⟨_, List.Mem.tail _ (List.Mem.head _), by norm_num⟩

/-- C5: when no worker outlives the deadline, the scheduler returns
exactly one result per dispatched task in dispatch order; a worker that
raised is replaced by a synthetic failed result carrying the error
string, its worker name and its task id, and a worker that returned
normally has its result passed through unchanged. -/
theorem scheduler_substitutes_failures (timeout : ℚ) (runs : List WorkerRun)
    (h : ∀ w ∈ runs, w.duration ≤ timeout) :
    (executeAgentsParallel timeout runs).length = runs.length ∧
    (∀ i (hi : i < runs.length) r, (runs.get ⟨i, hi⟩).outcome = Except.ok r →
      (executeAgentsParallel timeout runs)[i]? = some r) ∧
    (∀ i (hi : i < runs.length) e, (runs.get ⟨i, hi⟩).outcome = Except.error e →
      (executeAgentsParallel timeout runs)[i]? = some
        { agent_name := (runs.get ⟨i, hi⟩).name
          task_id := (runs.get ⟨i, hi⟩).task.task_id
          status := "failed", data := [], error := some e
          execution_time := 0, confidence_score := 0, sources := [] }) := by
  have hno : ¬ ∃ w ∈ runs, timeout < w.duration := by
    push_neg
    exact fun w hw => h w hw
  unfold executeAgentsParallel
  rw [if_neg hno]
  refine ⟨List.length_map _ _, ?_, ?_⟩
  · intro i hi r hr
    rw [List.getElem?_map, List.getElem?_eq_getElem hi]
    simp [List.get_eq_getElem] at hr
    simp [hr]
  · intro i hi e he
    rw [List.getElem?_map, List.getElem?_eq_getElem hi]
    simp [List.get_eq_getElem] at he
    simp [he, syntheticFailure]

/-- Witness for C5: of two workers within the deadline, the raising one
is replaced by a synthetic failed result and the returning one is
passed through unchanged. -/
theorem scheduler_substitutes_failures_witness :
    (executeAgentsParallel 30
      [⟨"clinical", ⟨"t1", "analyze clinical", [], 1⟩,
          Except.ok ⟨"ClinicalIntelligenceAgent", "t1", "success", [], none, 1, 1/2, []⟩, 1⟩,
       ⟨"patent", ⟨"t2", "analyze patents", [], 1⟩, Except.error "boom", 2⟩])[1]? =
      some ⟨"patent", "t2", "failed", [], some "boom", 0, 0, []⟩ := by
  have hall : ∀ w ∈ ([⟨"clinical", ⟨"t1", "analyze clinical", [], 1⟩,
          Except.ok ⟨"ClinicalIntelligenceAgent", "t1", "success", [], none, 1, 1/2, []⟩, 1⟩,
       ⟨"patent", ⟨"t2", "analyze patents", [], 1⟩, Except.error "boom", 2⟩] :
        List WorkerRun), w.duration ≤ 30 := by
    intro w hw
    simp only [List.mem_cons, List.not_mem_nil, or_false] at hw
    rcases hw with rfl | rfl <;> norm_num
  exact (scheduler_substitutes_failures 30 _ hall).2.2 1 (by norm_num) "boom" rfl

/-- The twelve-study retrieval of the clinical scenario: 8 completed
studies, 3 Phase 3 studies and 1 Phase 4 study. -/
def scenarioStudies : List Study :=
  List.replicate 8 { status := "COMPLETED" } ++
  List.replicate 3 { status := "RECRUITING", phase := ["PHASE3"] } ++
  [{ status := "RECRUITING", phase := ["PHASE4"] }]

/-- C8: on 12 retrieved studies with 8 completed, 3 Phase 3 and 1
Phase 4, the evidence score is 1.2 + 1.6 + 1.3 = 4.1, and at 4.1 the
derived recommendation is the moderate band. -/
theorem clinical_scenario_score_and_band :
    calculateEvidenceScore scenarioStudies = 4.1 ∧
    generateClinicalRecommendation scenarioStudies.length
      (calculateEvidenceScore scenarioStudies) (analyzePhases scenarioStudies) =
      "Moderate clinical evidence. Some trials in progress or completed." := by
  have hEmpty : scenarioStudies.isEmpty = false := rfl
  have hlen : scenarioStudies.length = 12 := rfl
  have hcom : (scenarioStudies.filter (fun s => s.status = "COMPLETED")).length = 8 := rfl
  have hp3 : (scenarioStudies.filter (fun s => studyHasPhase s "PHASE3")).length = 3 := rfl
  have hp4 : (scenarioStudies.filter (fun s => studyHasPhase s "PHASE4")).length = 1 := rfl
  have hscore : calculateEvidenceScore scenarioStudies = 4.1 := by
    have hmid : calculateEvidenceScore scenarioStudies = round2 (41 / 10) := by
      unfold calculateEvidenceScore
      simp only [hEmpty, hlen, hcom, hp3, hp4, Bool.false_eq_true, if_false]
      norm_num [min_def]
    rw [hmid, round2_eval (41 / 10) 410 (by norm_num) (by norm_num)]
    norm_num
  refine ⟨hscore, ?_⟩
  rw [hscore, hlen]
  unfold generateClinicalRecommendation
  rw [if_neg (by norm_num), if_neg (by norm_num), if_pos (by norm_num)]

/-- C3: the fallback decomposition is total and deterministic: for every
query it leaves the drug name empty, sets the analysis type to
repurposing and the required workers to the full registry, and derives
the condition by scanning the fixed keyword list with a case-insensitive
substring match, falling back to the first capitalized word longer than
3 characters and finally to the sentinel, never returning an empty
condition. -/
theorem fallback_decomposition_total (query : String) :
    (fallbackDecomposition query).condition ≠ "" ∧
    (fallbackDecomposition query).drug_name = "" ∧
    (fallbackDecomposition query).analysis_type = "repurposing" ∧
    (fallbackDecomposition query).required_agents = ["clinical", "patent", "market", "web"] ∧
    (∀ k, diseaseKeywords.find? (fun x => strContains (pyLower query) x) = some k →
      (fallbackDecomposition query).condition = pyCapitalize k) ∧
    (diseaseKeywords.find? (fun x => strContains (pyLower query) x) = none →
      ∀ w, (pyWords query).find? capWordP = some w →
        (fallbackDecomposition query).condition = w) ∧
    (diseaseKeywords.find? (fun x => strContains (pyLower query) x) = none →
      (pyWords query).find? capWordP = none →
      (fallbackDecomposition query).condition = "Unknown condition") := by
  have hcap : ∀ w, capWordP w = true → w ≠ "" := by
    intro w hw hempty
    rw [hempty] at hw
    exact absurd hw (by decide)
  have hkw : ∀ k ∈ diseaseKeywords, pyCapitalize k ≠ "" := by decide
  refine ⟨?_, rfl, rfl, rfl, ?_, ?_, ?_⟩
  · unfold fallbackDecomposition
    rcases hfind : diseaseKeywords.find? (fun x => strContains (pyLower query) x) with _ | k
    · rcases hw : (pyWords query).find? capWordP with _ | w
      · simp only [hfind, hw]
        decide
      · have hne := hcap w (List.find?_some hw)
        simp only [hfind, hw, if_neg hne]
        exact hne
    · have hne := hkw k (List.mem_of_find?_eq_some hfind)
      simp only [hfind, if_neg hne]
      exact hne
  · intro k hk
    unfold fallbackDecomposition
    simp only [hk]
    exact if_neg (hkw k (List.mem_of_find?_eq_some hk))
  · intro hnone w hw
    unfold fallbackDecomposition
    simp only [hnone, hw]
    exact if_neg (hcap w (List.find?_some hw))
  · intro hnone hwnone
    unfold fallbackDecomposition
    simp only [hnone, hwnone]
    rw [if_pos trivial]

/-- Witness for C3: on a query containing the keyword diabetes the
fallback condition is the capitalized keyword. -/
theorem fallback_decomposition_total_witness :
    (fallbackDecomposition "study diabetes treatment").condition = pyCapitalize "diabetes" :=
  (fallback_decomposition_total "study diabetes treatment").2.2.2.2.1 "diabetes" (by decide)

/-- Bounds helper: a score of the shape round2 (min s 10) with s
non-negative lies in the unit-to-ten band and is an exact multiple of
one hundredth. -/
theorem round2_min10_props (s : ℚ) (hs : 0 ≤ s) :
    0 ≤ round2 (min s 10) ∧ round2 (min s 10) ≤ 10 ∧
      (100 * round2 (min s 10)).den = 1 := by
  have h1 : (0 : ℚ) ≤ min s 10 := le_min hs (by norm_num)
  have h2 : min s 10 ≤ 10 := min_le_right _ _
  obtain ⟨a, b⟩ := round2_bounds (min s 10) 0 10 (by exact_mod_cast h1) (by exact_mod_cast h2)
  exact ⟨by exact_mod_cast a, by exact_mod_cast b, round2_den _⟩

/-- The market-size tier of the attractiveness score, as a natural
number. -/
def sizeTier (size_usd : ℚ) : ℕ :=
  if 20e9 < size_usd then 4 else if 10e9 < size_usd then 3
  else if 5e9 < size_usd then 2 else 1

/-- The growth tier of the attractiveness score, as a natural number. -/
def growthTier (cagr : ℚ) : ℕ :=
  if 10 < cagr then 3 else if 7 < cagr then 2 else if 4 < cagr then 1 else 0

/-- The competition tier of the attractiveness score, as a natural
number. -/
def shareTier (top3 : ℚ) : ℕ :=
  if top3 < 50 then 3 else if top3 < 70 then 2 else 1

/-- The market attractiveness score is exactly the natural-number sum of
its three tiers (the cap at 10 and the rounding are inert). -/
theorem mka_as_nat (ms comp : PyDict) :
    calculateMarketAttractiveness ms comp =
      ((sizeTier (getNumD ms "market_size_usd" 0) +
        growthTier (getNumD ms "projected_cagr" 0) +
        shareTier (getNumD comp "top_3_market_share" 100) : ℕ) : ℚ) := by
  simp only [calculateMarketAttractiveness, sizeTier, growthTier, shareTier]
  split_ifs <;>
    rw [min_eq_left (by norm_num), round2_eq_self _ (by norm_num)] <;> norm_num

/-- The size tier is between 1 and 4. -/
theorem sizeTier_bounds (x : ℚ) : 1 ≤ sizeTier x ∧ sizeTier x ≤ 4 := by
  unfold sizeTier
  split_ifs <;> omega

/-- The growth tier is at most 3. -/
theorem growthTier_bounds (x : ℚ) : growthTier x ≤ 3 := by
  unfold growthTier
  split_ifs <;> omega

/-- The competition tier is between 1 and 3. -/
theorem shareTier_bounds (x : ℚ) : 1 ≤ shareTier x ∧ shareTier x ≤ 3 := by
  unfold shareTier
  split_ifs <;> omega

/-- C4: each of the four worker scores (clinical evidence, patent risk,
market attractiveness, web research momentum) lies in the closed band
from 0 to 10 and is rounded to two decimals (an exact multiple of one
hundredth), for every input including empty retrievals. -/
theorem worker_scores_bounded :
    (∀ studies : List Study,
      0 ≤ calculateEvidenceScore studies ∧ calculateEvidenceScore studies ≤ 10 ∧
        (100 * calculateEvidenceScore studies).den = 1) ∧
    (∀ active_patents : ℕ,
      0 ≤ calculateRiskScore active_patents ∧ calculateRiskScore active_patents ≤ 10 ∧
        (100 * calculateRiskScore active_patents).den = 1) ∧
    (∀ ms comp : PyDict,
      0 ≤ calculateMarketAttractiveness ms comp ∧ calculateMarketAttractiveness ms comp ≤ 10 ∧
        (100 * calculateMarketAttractiveness ms comp).den = 1) ∧
    (∀ (ta : TrendAnalysis) (total_pubs : ℕ),
      0 ≤ calculateResearchMomentum ta total_pubs ∧
        calculateResearchMomentum ta total_pubs ≤ 10 ∧
        (100 * calculateResearchMomentum ta total_pubs).den = 1) := by
  refine ⟨?_, ?_, ?_, ?_⟩
  · intro studies
    simp only [calculateEvidenceScore]
    by_cases h : studies.isEmpty
    · rw [if_pos h]
      norm_num
    · rw [if_neg h]
      refine round2_min10_props _ ?_
      positivity
  · intro active_patents
    simp only [calculateRiskScore]
    have h1 : (0 : ℚ) ≤ min ((active_patents : ℚ) / 2) 10 := le_min (by positivity) (by norm_num)
    have h2 : min ((active_patents : ℚ) / 2) 10 ≤ 10 := min_le_right _ _
    obtain ⟨a, b⟩ := round2_bounds _ 0 10 (by exact_mod_cast h1) (by exact_mod_cast h2)
    exact ⟨by exact_mod_cast a, by exact_mod_cast b, round2_den _⟩
  · intro ms comp
    rw [mka_as_nat]
    obtain ⟨hs1, hs2⟩ := sizeTier_bounds (getNumD ms "market_size_usd" 0)
    have hg := growthTier_bounds (getNumD ms "projected_cagr" 0)
    obtain ⟨hc1, hc2⟩ := shareTier_bounds (getNumD comp "top_3_market_share" 100)
    refine ⟨by positivity, ?_, ?_⟩
    · have : sizeTier (getNumD ms "market_size_usd" 0) +
          growthTier (getNumD ms "projected_cagr" 0) +
          shareTier (getNumD comp "top_3_market_share" 100) ≤ 10 := by omega
      exact_mod_cast this
    · have : (100 : ℚ) * ((sizeTier (getNumD ms "market_size_usd" 0) +
          growthTier (getNumD ms "projected_cagr" 0) +
          shareTier (getNumD comp "top_3_market_share" 100) : ℕ) : ℚ) =
          ((100 * (sizeTier (getNumD ms "market_size_usd" 0) +
            growthTier (getNumD ms "projected_cagr" 0) +
            shareTier (getNumD comp "top_3_market_share" 100)) : ℕ) : ℚ) := by
        push_cast
        ring
      rw [this, Rat.den_natCast]
  · intro ta total_pubs
    simp only [calculateResearchMomentum]
    refine round2_min10_props _ ?_
    refine add_nonneg (add_nonneg ?_ ?_) ?_
    · split_ifs <;> norm_num
    · split_ifs <;> norm_num
    · split_ifs with h
      · norm_num
      · exact le_min (div_nonneg (Nat.cast_nonneg _) (by norm_num)) (by norm_num)

/-- Result literal carrying a given attractiveness score, used to
connect the market score to the risk rollup. -/
def marketResultWith (a : ℚ) : AgentResult :=
  { agent_name := "MarketIntelligenceAgent", task_id := "t", status := "success"
    data := [("attractiveness_score", PyVal.num a)] }

/-- C10: the market attractiveness score is always at least 2 (the size
and competition tiers each contribute at least one point), so it lies in
the band from 2 to 10, and consequently the High market-risk band of the
rollup (score below 3) is reachable only at the exact score 2. -/
theorem market_attractiveness_floor (ms comp : PyDict) :
    2 ≤ calculateMarketAttractiveness ms comp ∧
    calculateMarketAttractiveness ms comp ≤ 10 ∧
    (calculateMarketAttractiveness ms comp < 3 → calculateMarketAttractiveness ms comp = 2) ∧
    ((assessOverallRisk [marketResultWith (calculateMarketAttractiveness ms comp)]).market_risk = "High" →
      calculateMarketAttractiveness ms comp = 2) := by
  obtain ⟨hs1, hs2⟩ := sizeTier_bounds (getNumD ms "market_size_usd" 0)
  have hg := growthTier_bounds (getNumD ms "projected_cagr" 0)
  obtain ⟨hc1, hc2⟩ := shareTier_bounds (getNumD comp "top_3_market_share" 100)
  have heq := mka_as_nat ms comp
  have hlow : 2 ≤ calculateMarketAttractiveness ms comp := by
    rw [heq]
    have : 2 ≤ sizeTier (getNumD ms "market_size_usd" 0) +
        growthTier (getNumD ms "projected_cagr" 0) +
        shareTier (getNumD comp "top_3_market_share" 100) := by omega
    exact_mod_cast this
  have hhigh : calculateMarketAttractiveness ms comp ≤ 10 := by
    rw [heq]
    have : sizeTier (getNumD ms "market_size_usd" 0) +
        growthTier (getNumD ms "projected_cagr" 0) +
        shareTier (getNumD comp "top_3_market_share" 100) ≤ 10 := by omega
    exact_mod_cast this
  have hexact : calculateMarketAttractiveness ms comp < 3 →
      calculateMarketAttractiveness ms comp = 2 := by
    intro hlt
    rw [heq] at hlt ⊢
    have h3 : sizeTier (getNumD ms "market_size_usd" 0) +
        growthTier (getNumD ms "projected_cagr" 0) +
        shareTier (getNumD comp "top_3_market_share" 100) < 3 := by exact_mod_cast hlt
    have h2 : sizeTier (getNumD ms "market_size_usd" 0) +
        growthTier (getNumD ms "projected_cagr" 0) +
        shareTier (getNumD comp "top_3_market_share" 100) = 2 := by omega
    rw [h2]
    norm_num
  refine ⟨hlow, hhigh, hexact, ?_⟩
  intro hband
  have hmr : (assessOverallRisk [marketResultWith (calculateMarketAttractiveness ms comp)]).market_risk =
      (if 6 ≤ calculateMarketAttractiveness ms comp then "Low"
       else if 3 ≤ calculateMarketAttractiveness ms comp then "Moderate" else "High") := by
    unfold assessOverallRisk riskStep marketResultWith
    simp [getNumD, pyGet]
  rw [hmr] at hband
  split_ifs at hband with h6 h3
  · exact absurd hband (by decide)
  · exact absurd hband (by decide)
  · exact hexact (by linarith)

/-- Witness for C10: with empty provider payloads the attractiveness
score is exactly 2, the rollup band is High, and the implications of the
theorem apply. -/
theorem market_attractiveness_floor_witness :
    calculateMarketAttractiveness [] [] = 2 :=
  (market_attractiveness_floor [] []).2.2.1 (by
    rw [mka_as_nat]
    norm_num [sizeTier, growthTier, shareTier, getNumD, pyGet])

/-- A step of the risk fold leaves the clinical band unchanged unless
the result is a successful clinical result. -/
theorem riskStep_preserves_clinical (risks : RiskAssessment) (r : AgentResult)
    (h : ¬(r.status = "success" ∧ r.agent_name = "ClinicalIntelligenceAgent")) :
    (riskStep risks r).clinical_risk = risks.clinical_risk := by
  unfold riskStep
  split_ifs with h1 h2 <;> try rfl
  exact absurd ⟨h1, h2⟩ h

/-- A step of the risk fold leaves the IP band unchanged unless the
result is a successful patent result. -/
theorem riskStep_preserves_ip (risks : RiskAssessment) (r : AgentResult)
    (h : ¬(r.status = "success" ∧ r.agent_name = "PatentLandscapeAgent")) :
    (riskStep risks r).ip_risk = risks.ip_risk := by
  unfold riskStep
  split_ifs with h1 h2 h3 <;> try rfl
  exact absurd ⟨h1, h3⟩ h

/-- A step of the risk fold leaves the market band unchanged unless the
result is a successful market result. -/
theorem riskStep_preserves_market (risks : RiskAssessment) (r : AgentResult)
    (h : ¬(r.status = "success" ∧ r.agent_name = "MarketIntelligenceAgent")) :
    (riskStep risks r).market_risk = risks.market_risk := by
  unfold riskStep
  split_ifs with h1 h2 h3 h4 <;> try rfl
  exact absurd ⟨h1, h4⟩ h

/-- Folding the risk step over results without a successful clinical
result keeps the initial clinical band. -/
theorem foldl_riskStep_clinical (l : List AgentResult) (init : RiskAssessment)
    (h : ∀ r ∈ l, ¬(r.status = "success" ∧ r.agent_name = "ClinicalIntelligenceAgent")) :
    (l.foldl riskStep init).clinical_risk = init.clinical_risk := by
  induction l generalizing init with
  | nil => rfl
  | cons r t ih =>
    rw [List.foldl_cons, ih (riskStep init r) (fun x hx => h x (List.mem_cons_of_mem _ hx)),
      riskStep_preserves_clinical init r (h r (List.mem_cons_self _ _))]

/-- Folding the risk step over results without a successful patent
result keeps the initial IP band. -/
theorem foldl_riskStep_ip (l : List AgentResult) (init : RiskAssessment)
    (h : ∀ r ∈ l, ¬(r.status = "success" ∧ r.agent_name = "PatentLandscapeAgent")) :
    (l.foldl riskStep init).ip_risk = init.ip_risk := by
  induction l generalizing init with
  | nil => rfl
  | cons r t ih =>
    rw [List.foldl_cons, ih (riskStep init r) (fun x hx => h x (List.mem_cons_of_mem _ hx)),
      riskStep_preserves_ip init r (h r (List.mem_cons_self _ _))]

/-- Folding the risk step over results without a successful market
result keeps the initial market band. -/
theorem foldl_riskStep_market (l : List AgentResult) (init : RiskAssessment)
    (h : ∀ r ∈ l, ¬(r.status = "success" ∧ r.agent_name = "MarketIntelligenceAgent")) :
    (l.foldl riskStep init).market_risk = init.market_risk := by
  induction l generalizing init with
  | nil => rfl
  | cons r t ih =>
    rw [List.foldl_cons, ih (riskStep init r) (fun x hx => h x (List.mem_cons_of_mem _ hx)),
      riskStep_preserves_market init r (h r (List.mem_cons_self _ _))]

/-- A successful clinical result sets the clinical band from its
evidence score. -/
theorem riskStep_sets_clinical (risks : RiskAssessment) (r : AgentResult)
    (h1 : r.status = "success") (h2 : r.agent_name = "ClinicalIntelligenceAgent") :
    (riskStep risks r).clinical_risk =
      (if 6 ≤ getNumD r.data "evidence_score" 0 then "Low"
       else if 3 ≤ getNumD r.data "evidence_score" 0 then "Moderate" else "High") := by
  unfold riskStep
  rw [if_pos h1, if_pos h2]

/-- A successful patent result sets the IP band from its risk score. -/
theorem riskStep_sets_ip (risks : RiskAssessment) (r : AgentResult)
    (h1 : r.status = "success") (h2 : r.agent_name = "PatentLandscapeAgent") :
    (riskStep risks r).ip_risk =
      (if getNumD r.data "risk_score" 5 ≤ 3 then "Low"
       else if getNumD r.data "risk_score" 5 ≤ 6 then "Moderate" else "High") := by
  unfold riskStep
  rw [if_pos h1, if_neg (by rw [h2]; decide), if_pos h2]

/-- A successful market result sets the market band from its
attractiveness score. -/
theorem riskStep_sets_market (risks : RiskAssessment) (r : AgentResult)
    (h1 : r.status = "success") (h2 : r.agent_name = "MarketIntelligenceAgent") :
    (riskStep risks r).market_risk =
      (if 6 ≤ getNumD r.data "attractiveness_score" 5 then "Low"
       else if 3 ≤ getNumD r.data "attractiveness_score" 5 then "Moderate" else "High") := by
  unfold riskStep
  rw [if_pos h1, if_neg (by rw [h2]; decide), if_neg (by rw [h2]; decide), if_pos h2]

/-- The rollup projections agree with the underlying fold. -/
theorem assessOverallRisk_clinical (results : List AgentResult) :
    (assessOverallRisk results).clinical_risk =
      (results.foldl riskStep ⟨"Unknown", "Unknown", "Unknown", "Moderate"⟩).clinical_risk := rfl

/-- The rollup IP projection agrees with the underlying fold. -/
theorem assessOverallRisk_ip (results : List AgentResult) :
    (assessOverallRisk results).ip_risk =
      (results.foldl riskStep ⟨"Unknown", "Unknown", "Unknown", "Moderate"⟩).ip_risk := rfl

/-- The rollup market projection agrees with the underlying fold. -/
theorem assessOverallRisk_market (results : List AgentResult) :
    (assessOverallRisk results).market_risk =
      (results.foldl riskStep ⟨"Unknown", "Unknown", "Unknown", "Moderate"⟩).market_risk := rfl

/-- C6: the risk rollup maps each scored dimension to its band by the
source thresholds, defaults a missing or failed dimension to Unknown,
computes the overall band as the re-banded average of the three
dimension codes, and on an empty result list yields all dimensions
Unknown with overall risk Moderate. -/
theorem risk_rollup_thresholds :
    (assessOverallRisk [] =
      ⟨"Unknown", "Unknown", "Unknown", "Moderate"⟩) ∧
    (∀ results : List AgentResult,
      ((∀ r ∈ results, ¬(r.status = "success" ∧ r.agent_name = "ClinicalIntelligenceAgent")) →
        (assessOverallRisk results).clinical_risk = "Unknown") ∧
      ((∀ r ∈ results, ¬(r.status = "success" ∧ r.agent_name = "PatentLandscapeAgent")) →
        (assessOverallRisk results).ip_risk = "Unknown") ∧
      ((∀ r ∈ results, ¬(r.status = "success" ∧ r.agent_name = "MarketIntelligenceAgent")) →
        (assessOverallRisk results).market_risk = "Unknown") ∧
      (∀ r : AgentResult, r.status = "success" → r.agent_name = "ClinicalIntelligenceAgent" →
        (assessOverallRisk (results ++ [r])).clinical_risk =
          (if 6 ≤ getNumD r.data "evidence_score" 0 then "Low"
           else if 3 ≤ getNumD r.data "evidence_score" 0 then "Moderate" else "High")) ∧
      (∀ r : AgentResult, r.status = "success" → r.agent_name = "PatentLandscapeAgent" →
        (assessOverallRisk (results ++ [r])).ip_risk =
          (if getNumD r.data "risk_score" 5 ≤ 3 then "Low"
           else if getNumD r.data "risk_score" 5 ≤ 6 then "Moderate" else "High")) ∧
      (∀ r : AgentResult, r.status = "success" → r.agent_name = "MarketIntelligenceAgent" →
        (assessOverallRisk (results ++ [r])).market_risk =
          (if 6 ≤ getNumD r.data "attractiveness_score" 5 then "Low"
           else if 3 ≤ getNumD r.data "attractiveness_score" 5 then "Moderate" else "High")) ∧
      ((assessOverallRisk results).overall_risk =
        (if (riskValue (assessOverallRisk results).clinical_risk +
             riskValue (assessOverallRisk results).ip_risk +
             riskValue (assessOverallRisk results).market_risk) / 3 < 1.7 then "Low"
         else if (riskValue (assessOverallRisk results).clinical_risk +
             riskValue (assessOverallRisk results).ip_risk +
             riskValue (assessOverallRisk results).market_risk) / 3 < 2.3 then "Moderate"
         else "High"))) := by
  constructor
  · have hU : riskValue "Unknown" = 2 := rfl
    unfold assessOverallRisk
    simp only [List.foldl_nil, hU]
    norm_num
  · intro results
    refine ⟨?_, ?_, ?_, ?_, ?_, ?_, rfl⟩
    · intro h
      rw [assessOverallRisk_clinical, foldl_riskStep_clinical _ _ h]
    · intro h
      rw [assessOverallRisk_ip, foldl_riskStep_ip _ _ h]
    · intro h
      rw [assessOverallRisk_market, foldl_riskStep_market _ _ h]
    · intro r h1 h2
      rw [assessOverallRisk_clinical, List.foldl_append, List.foldl_cons, List.foldl_nil,
        riskStep_sets_clinical _ _ h1 h2]
    · intro r h1 h2
      rw [assessOverallRisk_ip, List.foldl_append, List.foldl_cons, List.foldl_nil,
        riskStep_sets_ip _ _ h1 h2]
    · intro r h1 h2
      rw [assessOverallRisk_market, List.foldl_append, List.foldl_cons, List.foldl_nil,
        riskStep_sets_market _ _ h1 h2]

/-- Witness for C6: a single successful market result with
attractiveness 2 lands in the High market band. -/
theorem risk_rollup_thresholds_witness :
    (assessOverallRisk ([] ++ [marketResultWith 2])).market_risk = "High" := by
  rw [(risk_rollup_thresholds.2 []).2.2.2.2.2.1 (marketResultWith 2) rfl rfl]
  rw [if_neg (by norm_num [marketResultWith, getNumD, pyGet]),
    if_neg (by norm_num [marketResultWith, getNumD, pyGet])]

/-- Membership in the deduplicated source union is membership in some
results sources field. -/
theorem mem_all_sources (results : List AgentResult) (s : String) :
    s ∈ (aggregateResults results).all_sources ↔ ∃ r ∈ results, s ∈ r.sources := by
  unfold aggregateResults
  simp only [List.mem_dedup, List.mem_flatten, List.mem_map]
  constructor
  · rintro ⟨l, ⟨r, hr, rfl⟩, hs⟩
    exact ⟨r, hr, hs⟩
  · rintro ⟨r, hr, hs⟩
    exact ⟨r.sources, ⟨r, hr, rfl⟩, hs⟩

/-- C7: aggregation is a pure function of the result list returning the
counts by status, the mean confidence over successful results only
(zero when none succeeded), the sum of execution times over all results
regardless of status, the deduplicated union of the sources fields, and
the raw data of each successful worker keyed by its worker name. -/
theorem aggregate_pure_summary (results : List AgentResult) :
    (aggregateResults results).total_agents = results.length ∧
    (aggregateResults results).successful_agents =
      results.countP (fun r => r.status = "success") ∧
    (aggregateResults results).failed_agents =
      results.countP (fun r => r.status = "failed") ∧
    ((∀ r ∈ results, r.status ≠ "success") →
      (aggregateResults results).average_confidence = 0) ∧
    (results.countP (fun r => r.status = "success") ≠ 0 →
      (aggregateResults results).average_confidence =
        ((results.filter (fun r => r.status = "success")).map
          (fun r => r.confidence_score)).sum /
          (results.countP (fun r => r.status = "success") : ℚ)) ∧
    (aggregateResults results).total_execution_time =
      (results.map (fun r => r.execution_time)).sum ∧
    (aggregateResults results).all_sources.Nodup ∧
    (∀ s : String, s ∈ (aggregateResults results).all_sources ↔
      ∃ r ∈ results, s ∈ r.sources) ∧
    (∀ r ∈ results, r.status = "success" →
      (r.agent_name ++ "_data", r.data) ∈ (aggregateResults results).agent_data) := by
  refine ⟨rfl, ?_, ?_, ?_, ?_, rfl, ?_, ?_, ?_⟩
  · exact (List.countP_eq_length_filter _ _).symm
  · exact (List.countP_eq_length_filter _ _).symm
  · intro h
    have hnil : results.filter (fun r => r.status = "success") = [] := by
      rw [List.filter_eq_nil_iff]
      intro r hr
      simpa using h r hr
    unfold aggregateResults
    simp only [hnil, List.isEmpty_nil, if_true]
  · intro h
    have hne : results.filter (fun r => r.status = "success") ≠ [] := by
      intro hnil
      rw [List.countP_eq_length_filter, hnil] at h
      exact h rfl
    have hempty : (results.filter (fun r => r.status = "success")).isEmpty = false := by
      rwa [List.isEmpty_eq_false, ne_eq]
    unfold aggregateResults
    simp only [hempty, Bool.false_eq_true, if_false]
    rw [List.countP_eq_length_filter]
  · exact List.nodup_dedup _
  · exact mem_all_sources results
  · intro r hr hstat
    unfold aggregateResults
    exact List.mem_map_of_mem _ (List.mem_filter.2 ⟨hr, by simp [hstat]⟩)

/-- Witness for C7: a batch whose only result failed has average
confidence zero. -/
theorem aggregate_pure_summary_witness :
    (aggregateResults
      [⟨"PatentLandscapeAgent", "t2", "failed", [], some "boom", 1, 1/2, ["USPTO Patent Database"]⟩]).average_confidence = 0 :=
  (aggregate_pure_summary _).2.2.2.1 (by
    intro r hr
    simp only [List.mem_singleton] at hr
    subst hr
    decide)

/-- C2 counterexample: the claim asserts that validate returns false
when the worker-required parameter is missing; here a task with a
non-empty description and no condition parameter still validates to
true (the parameter check happens later, inside execute). -/
theorem validate_missing_param_counterexample :
    validate_task
      { task_id := "t1", description := "Analyze clinical trials for X"
        parameters := [("drug_name", PyVal.str "aspirin")] } = true ∧
    pyGet ({ task_id := "t1", description := "Analyze clinical trials for X"
             parameters := [("drug_name", PyVal.str "aspirin")] } : AgentTask).parameters
      "condition" = none :=
  ⟨rfl, rfl⟩

/-- C2 (amended): validate returns false exactly when the description is
empty; the worker-required parameter check is carried out inside execute
after validation, and in either case (empty description or missing
required parameter) execute short-circuits with a failed result carrying
a descriptive error, without contacting any provider. -/
theorem validate_and_execute_shortcircuit (t : AgentTask) (cp : ClinicalProvider)
    (pp : PatentProvider) (mp : MarketProvider) (wp : WebProvider) :
    (validate_task t = false ↔ t.description = "") ∧
    (t.description = "" ∨ getStrD t.parameters "condition" "" = "" →
      (clinicalExecute t cp).2 = false ∧ (clinicalExecute t cp).1.status = "failed" ∧
        (clinicalExecute t cp).1.error.isSome = true) ∧
    (t.description = "" ∨ getStrD t.parameters "drug_name" "" = "" →
      (patentExecute t pp).2 = false ∧ (patentExecute t pp).1.status = "failed" ∧
        (patentExecute t pp).1.error.isSome = true) ∧
    (t.description = "" ∨ getStrD t.parameters "condition" "" = "" →
      (marketExecute t mp).2 = false ∧ (marketExecute t mp).1.status = "failed" ∧
        (marketExecute t mp).1.error.isSome = true) ∧
    (t.description = "" ∨ getStrD t.parameters "condition" "" = "" ∨
        getStrD t.parameters "drug_name" "" = "" →
      (webExecute t wp).2 = false ∧ (webExecute t wp).1.status = "failed" ∧
        (webExecute t wp).1.error.isSome = true) := by
  have hval : validate_task t = false ↔ t.description = "" := by
    unfold validate_task
    by_cases hd : t.description = ""
    · simp [hd]
    · simp [hd]
  refine ⟨hval, ?_, ?_, ?_, ?_⟩
  · intro h
    by_cases hd : t.description = ""
    · have hv : validate_task t = false := hval.2 hd
      unfold clinicalExecute
      rw [if_pos hv]
      exact ⟨rfl, rfl, rfl⟩
    · have hv : ¬validate_task t = false := fun hf => hd (hval.1 hf)
      rcases h with h | hc
      · exact absurd h hd
      · unfold clinicalExecute
        rw [if_neg hv]
        rw [if_pos hc]
        exact ⟨rfl, rfl, rfl⟩
  · intro h
    by_cases hd : t.description = ""
    · have hv : validate_task t = false := hval.2 hd
      unfold patentExecute
      rw [if_pos hv]
      exact ⟨rfl, rfl, rfl⟩
    · have hv : ¬validate_task t = false := fun hf => hd (hval.1 hf)
      rcases h with h | hc
      · exact absurd h hd
      · unfold patentExecute
        rw [if_neg hv]
        rw [if_pos hc]
        exact ⟨rfl, rfl, rfl⟩
  · intro h
    by_cases hd : t.description = ""
    · have hv : validate_task t = false := hval.2 hd
      unfold marketExecute
      rw [if_pos hv]
      exact ⟨rfl, rfl, rfl⟩
    · have hv : ¬validate_task t = false := fun hf => hd (hval.1 hf)
      rcases h with h | hc
      · exact absurd h hd
      · unfold marketExecute
        rw [if_neg hv]
        rw [if_pos hc]
        exact ⟨rfl, rfl, rfl⟩
  · intro h
    by_cases hd : t.description = ""
    · have hv : validate_task t = false := hval.2 hd
      unfold webExecute
      rw [if_pos hv]
      exact ⟨rfl, rfl, rfl⟩
    · have hv : ¬validate_task t = false := fun hf => hd (hval.1 hf)
      rcases h with h | hcd
      · exact absurd h hd
      · unfold webExecute
        rw [if_neg hv]
        rw [if_pos hcd]
        exact ⟨rfl, rfl, rfl⟩

/-- Witness for C2: a task with a non-empty description but no condition
parameter makes the clinical execute short-circuit with a failed result
and no provider contact. -/
theorem validate_and_execute_shortcircuit_witness :
    (clinicalExecute { task_id := "t1", description := "Analyze clinical trials" } {}).2 = false ∧
    (clinicalExecute { task_id := "t1", description := "Analyze clinical trials" } {}).1.status = "failed" :=
  have h := (validate_and_execute_shortcircuit
    { task_id := "t1", description := "Analyze clinical trials" } {} {} {} {}).2.1 (Or.inr rfl)
  ⟨h.1, h.2.1⟩

/-- First-match association lookup, used to characterise the last-wins
dictionary lookup through list reversal. -/
def findVal {α : Type} (k : String) : List (String × α) → Option α
  | [] => none
  | kv :: t => if kv.1 = k then some kv.2 else findVal k t

/-- The last-wins dictionary lookup is the first match in the reversed
association list. -/
theorem pyGet_eq_findVal_reverse {α : Type} (d : List (String × α)) (k : String) :
    pyGet d k = findVal k d.reverse := by
  unfold pyGet
  induction d using List.reverseRecOn with
  | nil => rfl
  | append_singleton t kv ih =>
    rw [List.foldl_append, List.foldl_cons, List.foldl_nil, List.reverse_append]
    simp only [List.reverse_singleton, List.singleton_append]
    unfold findVal
    by_cases h : kv.1 = k
    · rw [if_pos h, if_pos h]
    · rw [if_neg h, if_neg h]
      exact ih

/-- First-match lookup is invariant under permutations with duplicate-free
keys. -/
theorem findVal_perm {α : Type} (k : String) :
    ∀ {d1 d2 : List (String × α)}, d1.Perm d2 →
      (d1.map (fun kv => kv.1)).Nodup → findVal k d1 = findVal k d2 := by
  intro d1 d2 h
  induction h with
  | nil => intro _; rfl
  | cons kv _ ih =>
    intro hnd
    unfold findVal
    by_cases hk : kv.1 = k
    · rw [if_pos hk, if_pos hk]
    · rw [if_neg hk, if_neg hk]
      exact ih (by simpa using (List.nodup_cons.1 (by simpa using hnd)).2)
  | swap a b t =>
    intro hnd
    simp only [List.map_cons, List.nodup_cons, List.mem_cons, List.mem_map] at hnd
    unfold findVal
    by_cases hb : b.1 = k <;> by_cases ha : a.1 = k
    · exact absurd (hb.trans ha.symm) (fun e => hnd.1 (Or.inl e))
    · rw [if_pos hb, if_neg ha]
      unfold findVal
      rw [if_pos hb]
    · rw [if_neg hb, if_pos ha]
      unfold findVal
      rw [if_pos ha]
    · rw [if_neg hb, if_neg ha]
      unfold findVal
      rw [if_neg ha, if_neg hb]
  | trans h1 _ ih1 ih2 =>
    intro hnd
    rw [ih1 hnd, ih2 (((h1.map (fun kv => kv.1)).nodup_iff).1 hnd)]

/-- Appending a fixed suffix to strings is injective. -/
theorem append_suffix_injective (suf : String) :
    Function.Injective (fun s : String => s ++ suf) := by
  intro a b h
  have hd : a.data ++ suf.data = b.data ++ suf.data := by
    have := congrArg String.data h
    simpa [String.data_append] using this
  cases a with
  | mk la =>
    cases b with
    | mk lb =>
      simp only at hd ⊢
      congr 1
      exact List.append_cancel_right hd

/-- A duplicate-free list whose elements are all equal has at most one
element. -/
theorem nodup_const_length_le_one {l : List String} {N : String}
    (hnd : l.Nodup) (hc : ∀ x ∈ l, x = N) : l.length ≤ 1 := by
  match l with
  | [] => simp
  | [x] => simp
  | x :: y :: t =>
    exfalso
    have hx := hc x (List.mem_cons_self _ _)
    have hy := hc y (List.mem_cons_of_mem _ (List.mem_cons_self _ _))
    have := (List.nodup_cons.1 hnd).1
    exact this (by rw [hx, hy]; exact List.mem_cons_self _ _)

/-- Two permuted lists of length at most one are equal. -/
theorem perm_length_le_one_eq {α : Type} {l1 l2 : List α}
    (h : l1.Perm l2) (hlen : l1.length ≤ 1) : l1 = l2 := by
  match l1, hlen with
  | [], _ => exact (List.Perm.eq_nil h.symm).symm
  | [x], _ => exact (List.perm_singleton.1 h.symm).symm

/-- Two successful results sharing the clinical agent name but carrying
different data snapshots. -/
def dupA : AgentResult :=
  { agent_name := "ClinicalIntelligenceAgent", task_id := "t1", status := "success"
    data := [("evidence_score", PyVal.num 1)] }

/-- Companion duplicate-name result with a different snapshot. -/
def dupB : AgentResult :=
  { agent_name := "ClinicalIntelligenceAgent", task_id := "t2", status := "success"
    data := [("evidence_score", PyVal.num 2)] }

/-- C9 counterexample: permuting a result list with two successful
results sharing one agent name changes the per-worker data snapshot of
the aggregate (a dictionary value, not a list ordering), so aggregation
is not permutation-invariant on every result list. -/
theorem aggregate_perm_counterexample :
    getNumD ((pyGet (aggregateResults [dupA, dupB]).agent_data
        "ClinicalIntelligenceAgent_data").getD []) "evidence_score" 0 = 2 ∧
    getNumD ((pyGet (aggregateResults [dupB, dupA]).agent_data
        "ClinicalIntelligenceAgent_data").getD []) "evidence_score" 0 = 1 ∧
    aggregateResults [dupA, dupB] ≠ aggregateResults [dupB, dupA] := by
  have e1 : getNumD ((pyGet (aggregateResults [dupA, dupB]).agent_data
      "ClinicalIntelligenceAgent_data").getD []) "evidence_score" 0 = 2 := rfl
  have e2 : getNumD ((pyGet (aggregateResults [dupB, dupA]).agent_data
      "ClinicalIntelligenceAgent_data").getD []) "evidence_score" 0 = 1 := rfl
  refine ⟨e1, e2, fun h => ?_⟩
  have h2 := congrArg (fun a : AggregatedData =>
    getNumD ((pyGet a.agent_data "ClinicalIntelligenceAgent_data").getD [])
      "evidence_score" 0) h
  simp only [e1, e2] at h2
  exact absurd h2 (by norm_num)

/-- The mean-confidence field written as a function of the filtered
successes. -/
theorem aggregate_avg_char (results : List AgentResult) :
    (aggregateResults results).average_confidence =
      (if (results.filter (fun r => r.status = "success")).isEmpty then 0
       else ((results.filter (fun r => r.status = "success")).map
          (fun r => r.confidence_score)).sum /
        (((results.filter (fun r => r.status = "success")).length : ℚ))) := rfl

/-- The per-worker snapshot field written as a map over the filtered
successes. -/
theorem aggregate_agent_data_char (results : List AgentResult) :
    (aggregateResults results).agent_data =
      (results.filter (fun r => r.status = "success")).map
        (fun r => (r.agent_name ++ "_data", r.data)) := rfl

/-- The execution-time field written as a sum over all results. -/
theorem aggregate_time_char (results : List AgentResult) :
    (aggregateResults results).total_execution_time =
      (results.map (fun r => r.execution_time)).sum := rfl

/-- C9 (amended): on result lists whose agent names are pairwise
distinct (the shape every scheduler batch has), permuting the input
leaves every scalar aggregate field unchanged, preserves the source
union as a set, preserves the per-worker snapshot as a key-to-value map,
and permutes the key-findings list. -/
theorem aggregate_perm_invariant (l1 l2 : List AgentResult) (hperm : l1.Perm l2)
    (hnodup : (l1.map (fun r => r.agent_name)).Nodup) :
    (aggregateResults l1).total_agents = (aggregateResults l2).total_agents ∧
    (aggregateResults l1).successful_agents = (aggregateResults l2).successful_agents ∧
    (aggregateResults l1).failed_agents = (aggregateResults l2).failed_agents ∧
    (aggregateResults l1).average_confidence = (aggregateResults l2).average_confidence ∧
    (aggregateResults l1).total_execution_time = (aggregateResults l2).total_execution_time ∧
    (∀ s, s ∈ (aggregateResults l1).all_sources ↔ s ∈ (aggregateResults l2).all_sources) ∧
    (∀ k, pyGet (aggregateResults l1).agent_data k = pyGet (aggregateResults l2).agent_data k) ∧
    (extractKeyFindings l1).Perm (extractKeyFindings l2) := by
  have hf : (l1.filter (fun r => r.status = "success")).Perm
      (l2.filter (fun r => r.status = "success")) := hperm.filter _
  refine ⟨hperm.length_eq, hf.length_eq, (hperm.filter _).length_eq, ?_, ?_, ?_, ?_,
    hperm.filterMap _⟩
  · rw [aggregate_avg_char, aggregate_avg_char]
    by_cases hnil : l1.filter (fun r => r.status = "success") = []
    · have hnil2 : l2.filter (fun r => r.status = "success") = [] :=
        List.Perm.eq_nil (hnil ▸ hf).symm
      rw [hnil, hnil2]
    · have hnil2 : l2.filter (fun r => r.status = "success") ≠ [] := by
        intro h2
        exact hnil (List.Perm.eq_nil (h2 ▸ hf))
      rw [if_neg (by simpa [List.isEmpty_eq_true] using hnil),
        if_neg (by simpa [List.isEmpty_eq_true] using hnil2),
        (hf.map (fun r => r.confidence_score)).sum_eq, hf.length_eq]
  · rw [aggregate_time_char, aggregate_time_char,
      (hperm.map (fun r => r.execution_time)).sum_eq]
  · intro s
    rw [mem_all_sources, mem_all_sources]
    constructor
    · rintro ⟨r, hr, hs⟩
      exact ⟨r, hperm.subset hr, hs⟩
    · rintro ⟨r, hr, hs⟩
      exact ⟨r, hperm.symm.subset hr, hs⟩
  · intro k
    rw [aggregate_agent_data_char, aggregate_agent_data_char,
      pyGet_eq_findVal_reverse, pyGet_eq_findVal_reverse]
    have hmapped : ((l1.filter (fun r => r.status = "success")).map
        (fun r => (r.agent_name ++ "_data", r.data))).Perm
        ((l2.filter (fun r => r.status = "success")).map
          (fun r => (r.agent_name ++ "_data", r.data))) := hf.map _
    have hkeys : (((l1.filter (fun r => r.status = "success")).map
        (fun r => (r.agent_name ++ "_data", r.data))).map (fun kv => kv.1)).Nodup := by
      rw [List.map_map]
      have hsub : ((l1.filter (fun r => r.status = "success")).map
          (fun r => r.agent_name)).Nodup :=
        ((l1.filter_sublist).map (fun r => r.agent_name)).nodup hnodup
      have : ((fun kv : String × PyDict => kv.1) ∘
          (fun r : AgentResult => (r.agent_name ++ "_data", r.data))) =
          ((fun s => s ++ "_data") ∘ (fun r : AgentResult => r.agent_name)) := rfl
      rw [this, ← List.map_map]
      exact hsub.map (append_suffix_injective "_data")
    apply findVal_perm
    · exact (List.reverse_perm _).trans (hmapped.trans (List.reverse_perm _).symm)
    · rw [List.map_reverse, List.nodup_reverse]
      exact hkeys

/-- Witness for C9: swapping a two-result batch with distinct agent
names leaves the success count unchanged. -/
theorem aggregate_perm_invariant_witness :
    (aggregateResults
      [⟨"ClinicalIntelligenceAgent", "t1", "success", [], none, 1, 1/2, ["A"]⟩,
       ⟨"PatentLandscapeAgent", "t2", "failed", [], some "x", 2, 0, ["B"]⟩]).successful_agents =
    (aggregateResults
      [⟨"PatentLandscapeAgent", "t2", "failed", [], some "x", 2, 0, ["B"]⟩,
       ⟨"ClinicalIntelligenceAgent", "t1", "success", [], none, 1, 1/2, ["A"]⟩]).successful_agents :=
  (aggregate_perm_invariant _ _ (List.Perm.swap _ _ _) (by decide)).2.1

end DrugRepurposing
